import Mathlib

/-
Shallow embedding of `certbot/certbot/_internal/eff.py` (EFF newsletter
subscription workflow) and proofs about it.

External collaborators (the `requests` transport, the account file storage,
the interactive display layer, the `util.safe_email` validator) are modelled
as oracles or as recorded events; everything else is translated directly
from the source file.
-/

set_option autoImplicit false

namespace Eff

/-- JSON shape of the subscription endpoint response body, as far as
`_check_response` observes it: `response.json()` either succeeds and the
resulting object has a `status` field, succeeds without a `status` field
(so the `['status']` lookup raises `KeyError`), or the body is not
parseable JSON (`ValueError`). -/
inductive Body where
  | withStatus (status : Bool)
  | noStatusField
  | notJson
  deriving DecidableEq, Repr

/-- An HTTP response as observed by `_check_response`: a numeric status
code and a body. -/
structure HttpResponse where
  status_code : Nat
  body : Body
  deriving DecidableEq, Repr

/-- Behaviour of the `requests.post` call in `subscribe`: either the
transport fails (the call raises, e.g. `ConnectionError`) or a response
object is returned. -/
inductive PostResult where
  | transportError
  | response (r : HttpResponse)
  deriving DecidableEq, Repr

/-- Exceptions the embedded code can raise to its caller. -/
inductive PyExc where
  | nameError (name : String)
  | typeError (msg : String)
  | transportError
  deriving DecidableEq, Repr

/-- Outcome classification of one submission attempt. The source does not
reify this value; each constructor names the branch of `_check_response`
that runs (spec section 3, `SubscriptionOutcome`). -/
inductive Outcome where
  | Success
  | InvalidEmail
  | ServerError
  | MalformedResponse
  deriving DecidableEq, Repr

/-- `response.raise_for_status()` (from the `requests` library) raises
`requests.exceptions.HTTPError` exactly for client-error and server-error
status codes, 4xx and 5xx; informational, success and redirect codes do
not raise. -/
def raisesForStatus (r : HttpResponse) : Bool :=
  decide (400 ≤ r.status_code ∧ r.status_code < 600)

/-- `_report_failure(reason)`: builds the user-facing failure message that
is passed to `display_util.notify`. -/
def report_failure (reason : Option String) : String :=
  "We were unable to subscribe you the EFF mailing list"
    ++ (match reason with
        | none => ""
        | some r => " because " ++ r)
    ++ ". You can try again later by visiting https://act.eff.org."

/-- `_check_response(response)`: runs `raise_for_status`, then inspects the
JSON body. Returns the branch taken (as an `Outcome`) together with the
list of messages passed to `display_util.notify`. The `except` clauses
absorb `HTTPError` (from `raise_for_status`), `ValueError` (body not JSON)
and `KeyError` (no `status` field), so `_check_response` itself never
raises. -/
def check_response (r : HttpResponse) : Outcome × List String :=
  if raisesForStatus r then
    (Outcome.ServerError, [report_failure none])
  else
    match r.body with
    | Body.withStatus s =>
        if !s then
          (Outcome.InvalidEmail,
           [report_failure (some "your e-mail address appears to be invalid")])
        else (Outcome.Success, [])
    | Body.notJson =>
        (Outcome.MalformedResponse,
         [report_failure (some "there was a problem with the server response")])
    | Body.noStatusField =>
        (Outcome.MalformedResponse,
         [report_failure (some "there was a problem with the server response")])

/-- Modelled from the spec: `constants.EFF_SUBSCRIBE_URI`. The `constants`
module is not among the provided sources; the spec describes it only as "a
fixed well-known subscription endpoint URL", so it is modelled as a fixed
string constant. -/
def EFF_SUBSCRIBE_URI : String := "https://supporters.eff.org/subscribe/certbot"

/-- One HTTP POST attempt: the URL and the form-encoded fields handed to
`requests.post`. -/
structure HttpAttempt where
  url : String
  data : List (String × String)
  deriving DecidableEq, Repr

/-- The form dictionary built by `subscribe`. -/
def subscribe_data (email : String) : List (String × String) :=
  [("data_type", "json"), ("email", email),
   ("form_id", "eff_supporters_library_subscribe_form")]

/-- `subscribe(email)`: performs one `requests.post` of the form data to
`EFF_SUBSCRIBE_URI` and hands the response to `_check_response`. The
network behaviour is the oracle `net`. Returns the attempts made together
with either the classification and notify messages from `_check_response`,
or the exception that propagates: the `requests.post` call sits outside any
`try` block, so a transport-level failure escapes `subscribe`. -/
def subscribe (email : String) (net : PostResult) :
    List HttpAttempt × Except PyExc (Outcome × List String) :=
  match net with
  | PostResult.transportError =>
      ([⟨EFF_SUBSCRIBE_URI, subscribe_data email⟩], Except.error PyExc.transportError)
  | PostResult.response r =>
      ([⟨EFF_SUBSCRIBE_URI, subscribe_data email⟩], Except.ok (check_response r))

/-- The single account-metadata field this module reads and writes. -/
structure AccountMeta where
  register_to_eff : Option String
  deriving DecidableEq, Repr

/-- An account object; only its metadata is observed by this module. -/
structure Account where
  meta : AccountMeta
  deriving DecidableEq, Repr

/-- Python truthiness of an `Optional[str]` value: `None` and the empty
string are falsy. -/
def truthyOpt : Option String → Bool
  | none => false
  | some s => !s.isEmpty

/-- The slice of `configuration.NamespaceConfig` read and written here:
`eff_email` is the tri-state `True`/`False`/`None`, `eff_email_address`
and `email` are optional strings, `dry_run` a flag. -/
structure Config where
  eff_email : Option Bool
  eff_email_address : Option String
  email : Option String
  dry_run : Bool
  deriving DecidableEq, Repr

/-- Observable result of one `handle_subscription` call: the final state of
the account object, the HTTP attempts made, the account states passed to
`storage.update_meta`, the notify messages, and the exception that
propagates, if any. -/
structure HandleResult where
  acc : Option Account
  attempts : List HttpAttempt
  storageUpdates : List Account
  notes : List String
  exc : Option PyExc
  deriving DecidableEq, Repr

/-- `handle_subscription(config, acc)`: returns at once when
`config.dry_run` is set or `acc` is `None`; returns at once when
`acc.meta.register_to_eff` is falsy; otherwise calls `subscribe` on the
pending address and then clears the field and persists the account.
Because the clearing statement follows the `subscribe(...)` call, it is
not reached when `subscribe` raises: the exception propagates with the
pending field still set. -/
def handle_subscription (config : Config) (acc : Option Account) (net : PostResult) :
    HandleResult :=
  if config.dry_run then ⟨acc, [], [], [], none⟩
  else
    match acc with
    | none => ⟨none, [], [], [], none⟩
    | some a =>
        match a.meta.register_to_eff with
        | none => ⟨some a, [], [], [], none⟩
        | some email =>
            if email.isEmpty then ⟨some a, [], [], [], none⟩
            else
              match subscribe email net with
              | (atts, Except.error e) => ⟨some a, atts, [], [], some e⟩
              | (atts, Except.ok (_, msgs)) =>
                  let a2 : Account := { a with meta := { a.meta with register_to_eff := none } }
                  ⟨some a2, atts, [a2], msgs, none⟩

/-- Observable result of one `prepare_subscription` call: the final config
object (the source may assign `config.eff_email_address`), the final
account object, the account states passed to `storage.update_meta`, the
`default` arguments of the yes/no prompts actually presented to the user
(in order), and the exception that propagates, if any. -/
structure PrepareResult where
  config : Config
  acc : Account
  storageUpdates : List Account
  promptDefaults : List Bool
  exc : Option PyExc
  deriving DecidableEq, Repr

/-- The zero-argument call `_want_subscription()` made by
`prepare_subscription`: the definition
`def _want_subscription(invalid_email: bool)` has one required positional
parameter and no default, so this call raises `TypeError` before the body
runs and before any prompt is shown. -/
def want_subscription_no_arg : Except PyExc Bool :=
  Except.error (PyExc.typeError
    "_want_subscription() missing 1 required positional argument: invalid_email")

/-- A one-argument call `_want_subscription(b)`: the body binds two local
strings and then evaluates the argument of `display_util.yesno`, the
conditional expression whose condition is the name `invalid`; no such name
is bound (the parameter is `invalid_email`), so `NameError` is raised
before any prompt is shown, whatever `b` is. -/
def want_subscription (_invalid_email : Bool) : Except PyExc Bool :=
  Except.error (PyExc.nameError "invalid")

/-- The zero-argument call `_get_subscription_email()` made by
`prepare_subscription`: the first statement of the body concatenates
`config.email` into `reuse_email_msg`, but no name `config` is bound in
`_get_subscription_email` (the function has no parameters and the module
imports `configuration`, not `config`), so `NameError` is raised before
the reuse-email prompt is shown. -/
def get_subscription_email_no_arg : Except PyExc String :=
  Except.error (PyExc.nameError "config")

/-- The one-argument call `_get_subscription_email(True)` made inside the
retry loop of `prepare_subscription`: the definition
`def _get_subscription_email()` takes no parameters, so this call raises
`TypeError` before the body runs. -/
def get_subscription_email_one_arg : Except PyExc String :=
  Except.error (PyExc.typeError
    "_get_subscription_email() takes 0 positional arguments but 1 was given")

/-- The trailing statements of `prepare_subscription`: when
`acc.meta.register_to_eff` is truthy the account is persisted via
`storage.update_meta`, otherwise nothing happens. -/
def prepare_persist (config : Config) (acc : Account) : PrepareResult :=
  if truthyOpt acc.meta.register_to_eff then ⟨config, acc, [acc], [], none⟩
  else ⟨config, acc, [], [], none⟩

/-- The `while not config.eff_email_address or not util.safe_email(...)`
loop of `prepare_subscription` and the staging assignment after it. When
the loop is skipped (address truthy and valid for the `safe_email`
oracle), the address is staged on `acc.meta.register_to_eff` and control
falls through to `prepare_persist`. When the loop is entered, its first
statement is `_want_subscription(True)`, which in this source always
raises (see `want_subscription`), so no iteration ever completes and no
recursion is needed: the impossible normal returns are discharged by
`False.elim`. -/
def prepare_loop (safe_email : String → Bool) (config : Config) (acc : Account) :
    PrepareResult :=
  if truthyOpt config.eff_email_address
      && safe_email (config.eff_email_address.getD "") then
    let acc2 : Account :=
      { acc with meta := { acc.meta with register_to_eff := config.eff_email_address } }
    prepare_persist config acc2
  else
    match h : want_subscription true with
    | Except.error e => ⟨config, acc, [], [], some e⟩
    | Except.ok _ => False.elim (by simp [want_subscription] at h)

/-- The consent branch of `prepare_subscription` (the body of the second
`if`). When `config.eff_email_address` is falsy, the source assigns it
from `_get_subscription_email()`; in this source that call always raises
(see `get_subscription_email_no_arg`), so the assignment never completes.
Otherwise control enters the retry loop. -/
def prepare_consent_body (safe_email : String → Bool) (config : Config) (acc : Account) :
    PrepareResult :=
  if !truthyOpt config.eff_email_address then
    match h : get_subscription_email_no_arg with
    | Except.error e => ⟨config, acc, [], [], some e⟩
    | Except.ok _ => False.elim (by simp [get_subscription_email_no_arg] at h)
  else prepare_loop safe_email config acc

/-- `prepare_subscription(config, acc)`, with the email-syntax validator
`util.safe_email` supplied as the oracle `safe_email`. `eff_email is
False` returns at once; `eff_email is True` short-circuits the `or` and
enters the consent branch; otherwise (`eff_email is None`) the call
`_want_subscription()` is evaluated, which in this source raises
`TypeError` (see `want_subscription_no_arg`). No execution path of this
function reaches a `display_util.yesno` or `display_util.input_text`
call, so `promptDefaults` is empty on every path. -/
def prepare_subscription (safe_email : String → Bool) (config : Config) (acc : Account) :
    PrepareResult :=
  match config.eff_email with
  | some false => ⟨config, acc, [], [], none⟩
  | some true => prepare_consent_body safe_email config acc
  | none =>
      match h : want_subscription_no_arg with
      | Except.error e => ⟨config, acc, [], [], some e⟩
      | Except.ok _ => False.elim (by simp [want_subscription_no_arg] at h)

/-- Helper: `raise_for_status` does not raise on 2xx codes. -/
theorem raisesForStatus_2xx (code : Nat) (b : Body) (h1 : 200 ≤ code) (h2 : code < 300) :
    raisesForStatus ⟨code, b⟩ = false := by
  simp only [raisesForStatus, decide_eq_false_iff_not]
  omega

/-- Helper: `raise_for_status` raises on 4xx and 5xx codes. -/
theorem raisesForStatus_4xx5xx (code : Nat) (b : Body) (h1 : 400 ≤ code) (h2 : code < 600) :
    raisesForStatus ⟨code, b⟩ = true := by
  simp only [raisesForStatus, decide_eq_true_eq]
  omega

/-- C5: for every 2xx HTTP response, `subscribe` classifies a truthy
`status` field as `Success` with no notify message; a falsy `status` field
as `InvalidEmail` with one notify message containing "your e-mail address
appears to be invalid"; and an unparseable body or a body without a
`status` field as `MalformedResponse` with one notify message containing
"there was a problem with the server response". No exception propagates in
any of these cases. -/
theorem subscribe_2xx_classification (email : String) (code : Nat)
    (h1 : 200 ≤ code) (h2 : code < 300) :
    (subscribe email (PostResult.response ⟨code, Body.withStatus true⟩)).2
        = Except.ok (Outcome.Success, [])
    ∧ (∃ pre suf,
        (subscribe email (PostResult.response ⟨code, Body.withStatus false⟩)).2
          = Except.ok (Outcome.InvalidEmail,
              [pre ++ "your e-mail address appears to be invalid" ++ suf]))
    ∧ (∃ pre suf,
        (subscribe email (PostResult.response ⟨code, Body.notJson⟩)).2
          = Except.ok (Outcome.MalformedResponse,
              [pre ++ "there was a problem with the server response" ++ suf])
        ∧ (subscribe email (PostResult.response ⟨code, Body.noStatusField⟩)).2
          = Except.ok (Outcome.MalformedResponse,
              [pre ++ "there was a problem with the server response" ++ suf])) := by
  refine ⟨?_,
    ⟨"We were unable to subscribe you the EFF mailing list because ",
     ". You can try again later by visiting https://act.eff.org.", ?_⟩,
    ⟨"We were unable to subscribe you the EFF mailing list because ",
     ". You can try again later by visiting https://act.eff.org.", ?_, ?_⟩⟩ <;>
  · simp only [subscribe]
    unfold check_response
    rw [raisesForStatus_2xx _ _ h1 h2]
    rfl

/-- C5 witness at a concrete 2xx code. -/
theorem subscribe_2xx_classification_witness :
    (200 ≤ 200 ∧ 200 < 300)
    ∧ ((subscribe "user@example.com" (PostResult.response ⟨200, Body.withStatus true⟩)).2
        = Except.ok (Outcome.Success, [])
      ∧ (∃ pre suf,
          (subscribe "user@example.com" (PostResult.response ⟨200, Body.withStatus false⟩)).2
            = Except.ok (Outcome.InvalidEmail,
                [pre ++ "your e-mail address appears to be invalid" ++ suf]))
      ∧ (∃ pre suf,
          (subscribe "user@example.com" (PostResult.response ⟨200, Body.notJson⟩)).2
            = Except.ok (Outcome.MalformedResponse,
                [pre ++ "there was a problem with the server response" ++ suf])
          ∧ (subscribe "user@example.com" (PostResult.response ⟨200, Body.noStatusField⟩)).2
            = Except.ok (Outcome.MalformedResponse,
                [pre ++ "there was a problem with the server response" ++ suf]))) :=
  ⟨⟨by decide, by decide⟩,
   subscribe_2xx_classification "user@example.com" 200 (by decide) (by decide)⟩

/-- C2 as stated is false on this code: a transport-level failure of the
`requests.post` call propagates out of `subscribe` as an exception (it is
not classified as `ServerError` and not absorbed into a notification), and
a non-2xx redirect status (301) is not classified as `ServerError` either
(`raise_for_status` raises only on 4xx/5xx). -/
theorem subscribe_transport_propagates_cex :
    (subscribe "user@example.net" PostResult.transportError).2
        = Except.error PyExc.transportError
    ∧ (subscribe "user@example.net" (PostResult.response ⟨301, Body.withStatus true⟩)).2
        = Except.ok (Outcome.Success, []) :=
  ⟨rfl, rfl⟩

/-- C2 amended: a 4xx or 5xx HTTP status is classified as `ServerError`
and reported only as a best-effort user notification with no specific
reason clause, with no exception propagating; but a transport-level
failure of the HTTP POST propagates as an exception to the caller of
`subscribe` (and produces no notification). -/
theorem subscribe_http_error_classification (email : String) (code : Nat) (b : Body)
    (h1 : 400 ≤ code) (h2 : code < 600) :
    (subscribe email (PostResult.response ⟨code, b⟩)).2
      = Except.ok (Outcome.ServerError,
          ["We were unable to subscribe you the EFF mailing list. You can try again later by visiting https://act.eff.org."])
    ∧ (subscribe email PostResult.transportError).2 = Except.error PyExc.transportError := by
  constructor
  · simp only [subscribe]
    unfold check_response
    rw [raisesForStatus_4xx5xx _ _ h1 h2]
    rfl
  · rfl

/-- C2 amended, witness at HTTP 500. -/
theorem subscribe_http_error_classification_witness :
    (400 ≤ 500 ∧ 500 < 600)
    ∧ ((subscribe "user@example.org" (PostResult.response ⟨500, Body.withStatus true⟩)).2
        = Except.ok (Outcome.ServerError,
            ["We were unable to subscribe you the EFF mailing list. You can try again later by visiting https://act.eff.org."])
      ∧ (subscribe "user@example.org" PostResult.transportError).2
        = Except.error PyExc.transportError) :=
  ⟨⟨by decide, by decide⟩,
   subscribe_http_error_classification "user@example.org" 500 (Body.withStatus true)
     (by decide) (by decide)⟩

/-- C8: for every email and every network behaviour, `subscribe` performs
exactly one HTTP POST, to the fixed endpoint, whose form-encoded body has
exactly the three fields `data_type`, `email` and `form_id` with the
values the source builds. -/
theorem subscribe_single_post_fixed_form (email : String) (net : PostResult) :
    (subscribe email net).1
      = [⟨EFF_SUBSCRIBE_URI,
          [("data_type", "json"), ("email", email),
           ("form_id", "eff_supporters_library_subscribe_form")]⟩] := by
  cases net <;> rfl

/-- C7: whenever `dry_run` is set, `handle_subscription` is a complete
no-op for every account state and every network behaviour: no HTTP
attempt, no metadata mutation, no storage update, no notification, no
exception. -/
theorem handle_dry_run_noop (config : Config) (acc : Option Account) (net : PostResult)
    (h : config.dry_run = true) :
    handle_subscription config acc net = ⟨acc, [], [], [], none⟩ := by
  unfold handle_subscription
  rw [h]
  rfl

/-- C7 witness: a dry run with a pending subscription staged. -/
theorem handle_dry_run_noop_witness :
    (⟨some true, none, none, true⟩ : Config).dry_run = true
    ∧ handle_subscription ⟨some true, none, none, true⟩
        (some ⟨⟨some "pending@example.com"⟩⟩) PostResult.transportError
      = ⟨some ⟨⟨some "pending@example.com"⟩⟩, [], [], [], none⟩ :=
  ⟨rfl, handle_dry_run_noop ⟨some true, none, none, true⟩
    (some ⟨⟨some "pending@example.com"⟩⟩) PostResult.transportError rfl⟩

/-- C1 as stated is false on this code: when the submission attempt fails
at the transport level, the exception raised by `requests.post` propagates
out of `handle_subscription` before the clearing statement runs, so the
pending field is NOT cleared, nothing is persisted, and a second call on
the resulting state performs a second submission attempt for the same
staged email. -/
theorem handle_transport_failure_retries_cex :
    (handle_subscription ⟨some true, none, none, false⟩
        (some ⟨⟨some "user@example.com"⟩⟩) PostResult.transportError).acc
      = some ⟨⟨some "user@example.com"⟩⟩
    ∧ (handle_subscription ⟨some true, none, none, false⟩
        (some ⟨⟨some "user@example.com"⟩⟩) PostResult.transportError).storageUpdates = []
    ∧ (handle_subscription ⟨some true, none, none, false⟩
        (some ⟨⟨some "user@example.com"⟩⟩) PostResult.transportError).exc
      = some PyExc.transportError
    ∧ (handle_subscription ⟨some true, none, none, false⟩
        (some ⟨⟨some "user@example.com"⟩⟩) PostResult.transportError).attempts.length = 1
    ∧ (handle_subscription ⟨some true, none, none, false⟩
        ((handle_subscription ⟨some true, none, none, false⟩
            (some ⟨⟨some "user@example.com"⟩⟩) PostResult.transportError).acc)
        PostResult.transportError).attempts.length = 1 :=
  ⟨rfl, rfl, rfl, rfl, rfl⟩

/-- C1 amended: when the HTTP POST returns a response (2xx or not, any
body — i.e. on success and on every failure that `_check_response`
absorbs), one `handle_subscription` call clears the pending field,
persists the account, makes exactly one attempt and raises nothing, and a
second call on the resulting state is a no-op with no further attempt.
When the POST itself fails at the transport level, however, the exception
propagates and the pending field is left set (see the counterexample). -/
theorem handle_response_clears_and_idempotent (config : Config) (a : Account)
    (email : String) (r : HttpResponse) (net2 : PostResult)
    (hdry : config.dry_run = false)
    (hpend : a.meta.register_to_eff = some email)
    (hne : email.isEmpty = false) :
    (handle_subscription config (some a) (PostResult.response r)).acc = some ⟨⟨none⟩⟩
    ∧ (handle_subscription config (some a) (PostResult.response r)).storageUpdates
        = [⟨⟨none⟩⟩]
    ∧ (handle_subscription config (some a) (PostResult.response r)).attempts.length = 1
    ∧ (handle_subscription config (some a) (PostResult.response r)).exc = none
    ∧ handle_subscription config
        ((handle_subscription config (some a) (PostResult.response r)).acc) net2
      = ⟨(handle_subscription config (some a) (PostResult.response r)).acc,
         [], [], [], none⟩ := by
  have h1 : handle_subscription config (some a) (PostResult.response r)
      = ⟨some ⟨⟨none⟩⟩, [⟨EFF_SUBSCRIBE_URI, subscribe_data email⟩], [⟨⟨none⟩⟩],
         (check_response r).2, none⟩ := by
    simp only [handle_subscription, hdry, Bool.false_eq_true, if_false, hpend, hne, subscribe]
  have h2 : handle_subscription config (some ⟨⟨none⟩⟩) net2
      = ⟨some ⟨⟨none⟩⟩, [], [], [], none⟩ := by
    simp only [handle_subscription, hdry, Bool.false_eq_true, if_false]
  rw [h1]
  exact ⟨rfl, rfl, rfl, rfl, h2⟩

/-- C1 amended, witness: a 500 response still clears the pending field and
makes the second call a no-op. -/
theorem handle_response_clears_and_idempotent_witness :
    ((⟨some true, none, none, false⟩ : Config).dry_run = false
      ∧ (⟨⟨some "staged@example.com"⟩⟩ : Account).meta.register_to_eff
          = some "staged@example.com"
      ∧ ("staged@example.com").isEmpty = false)
    ∧ ((handle_subscription ⟨some true, none, none, false⟩
          (some ⟨⟨some "staged@example.com"⟩⟩)
          (PostResult.response ⟨500, Body.withStatus true⟩)).acc = some ⟨⟨none⟩⟩
      ∧ (handle_subscription ⟨some true, none, none, false⟩
          (some ⟨⟨some "staged@example.com"⟩⟩)
          (PostResult.response ⟨500, Body.withStatus true⟩)).storageUpdates = [⟨⟨none⟩⟩]
      ∧ (handle_subscription ⟨some true, none, none, false⟩
          (some ⟨⟨some "staged@example.com"⟩⟩)
          (PostResult.response ⟨500, Body.withStatus true⟩)).attempts.length = 1
      ∧ (handle_subscription ⟨some true, none, none, false⟩
          (some ⟨⟨some "staged@example.com"⟩⟩)
          (PostResult.response ⟨500, Body.withStatus true⟩)).exc = none
      ∧ handle_subscription ⟨some true, none, none, false⟩
          ((handle_subscription ⟨some true, none, none, false⟩
              (some ⟨⟨some "staged@example.com"⟩⟩)
              (PostResult.response ⟨500, Body.withStatus true⟩)).acc)
          PostResult.transportError
        = ⟨(handle_subscription ⟨some true, none, none, false⟩
              (some ⟨⟨some "staged@example.com"⟩⟩)
              (PostResult.response ⟨500, Body.withStatus true⟩)).acc,
           [], [], [], none⟩) :=
  ⟨⟨rfl, rfl, rfl⟩,
   handle_response_clears_and_idempotent ⟨some true, none, none, false⟩
     ⟨⟨some "staged@example.com"⟩⟩ "staged@example.com"
     ⟨500, Body.withStatus true⟩ PostResult.transportError rfl rfl rfl⟩

/-- C6: whenever `eff_email` is explicitly `False`, `prepare_subscription`
returns immediately: the config and account objects are returned
unchanged, no storage update happens, no prompt is presented, no exception
is raised — and this holds uniformly in the `safe_email` validator, so no
validation is performed either. -/
theorem prepare_explicit_opt_out (safe_email : String → Bool) (config : Config)
    (acc : Account) (h : config.eff_email = some false) :
    prepare_subscription safe_email config acc = ⟨config, acc, [], [], none⟩ := by
  unfold prepare_subscription
  rw [h]

/-- C6 witness: explicit opt-out with a pre-supplied address and an
already-pending account. -/
theorem prepare_explicit_opt_out_witness :
    (⟨some false, some "user@example.com", some "user@example.com", false⟩ : Config).eff_email
      = some false
    ∧ prepare_subscription (fun _ => true)
        ⟨some false, some "user@example.com", some "user@example.com", false⟩
        ⟨⟨some "old@example.com"⟩⟩
      = ⟨⟨some false, some "user@example.com", some "user@example.com", false⟩,
         ⟨⟨some "old@example.com"⟩⟩, [], [], none⟩ :=
  ⟨rfl, prepare_explicit_opt_out (fun _ => true)
    ⟨some false, some "user@example.com", some "user@example.com", false⟩
    ⟨⟨some "old@example.com"⟩⟩ rfl⟩

/-- C3 fails on this code: with consent given by flag and an invalid
pre-supplied candidate email, the re-ask consent prompt is never reached;
the loop's first statement `_want_subscription(True)` raises `NameError`
on the unbound name `invalid`, so `prepare_subscription` propagates an
exception instead of returning normally (the account metadata is indeed
left unchanged, but no user decline is ever read). The `safe_email` oracle
here rejects every address, making the candidate invalid. -/
theorem prepare_invalid_email_name_error :
    prepare_subscription (fun _ => false)
        ⟨some true, some "bad-address", none, false⟩ ⟨⟨none⟩⟩
      = ⟨⟨some true, some "bad-address", none, false⟩, ⟨⟨none⟩⟩, [], [],
         some (PyExc.nameError "invalid")⟩ :=
  rfl

/-- C4 fails on this code: with `eff_email` unset (neither flag given),
`prepare_subscription` evaluates `_want_subscription()` with no argument;
the definition requires the positional parameter `invalid_email`, so
`TypeError` is raised before any consent prompt is presented, and no
candidate email is ever obtained. -/
theorem prepare_unset_type_error :
    prepare_subscription (fun _ => true)
        ⟨none, none, some "user@example.com", false⟩ ⟨⟨none⟩⟩
      = ⟨⟨none, none, some "user@example.com", false⟩, ⟨⟨none⟩⟩, [], [],
         some (PyExc.typeError
           "_want_subscription() missing 1 required positional argument: invalid_email")⟩ :=
  rfl

/-- C9 fails on this code: with consent given by flag but no pre-supplied
address, the interactive acquisition `_get_subscription_email()` raises
`NameError` on the unbound name `config` before any email is obtained, so
nothing is ever written back to `config.eff_email_address` (the returned
config still has the field empty) and the exception propagates. -/
theorem prepare_interactive_acquisition_raises :
    prepare_subscription (fun _ => true)
        ⟨some true, none, some "user@example.com", false⟩ ⟨⟨none⟩⟩
      = ⟨⟨some true, none, some "user@example.com", false⟩, ⟨⟨none⟩⟩, [], [],
         some (PyExc.nameError "config")⟩ :=
  rfl

/-- Helper: the persist tail presents no prompt. -/
theorem prepare_persist_promptDefaults (config : Config) (acc : Account) :
    (prepare_persist config acc).promptDefaults = [] := by
  unfold prepare_persist
  split <;> rfl

/-- Helper: the retry loop presents no prompt (it raises before its
prompt). -/
theorem prepare_loop_promptDefaults (safe_email : String → Bool) (config : Config)
    (acc : Account) :
    (prepare_loop safe_email config acc).promptDefaults = [] := by
  unfold prepare_loop
  split
  · exact prepare_persist_promptDefaults _ _
  · rfl

/-- Helper: the consent branch presents no prompt (interactive email
acquisition raises before its prompt). -/
theorem prepare_consent_body_promptDefaults (safe_email : String → Bool) (config : Config)
    (acc : Account) :
    (prepare_consent_body safe_email config acc).promptDefaults = [] := by
  unfold prepare_consent_body
  split
  · rfl
  · exact prepare_loop_promptDefaults _ _ _

/-- C10 fails on this code: although both `display_util.yesno` call sites
in the source do pass `default=False`, no execution path of
`prepare_subscription` ever presents a yes/no prompt — every path that
would prompt raises first — so the claim's premise that the consent and
reuse-default-email prompts are asked is never realised. This theorem
shows the list of presented prompt defaults is empty for every validator,
config and account. -/
theorem prepare_no_prompt_ever_presented (safe_email : String → Bool) (config : Config)
    (acc : Account) :
    (prepare_subscription safe_email config acc).promptDefaults = [] := by
  obtain ⟨e, addr, em, d⟩ := config
  rcases e with _ | b
  · rfl
  · cases b
    · rfl
    · exact prepare_consent_body_promptDefaults safe_email _ acc

end Eff
